import Mathlib

/-!
Verification of the xml_to_csv route-extraction pipeline (src/xml_to_csv.py).

The program is shallowly embedded: an XML document is a tree of elements,
ElementTree path lookup becomes list traversal, Python `int()` / `float()`
become parsers into `Int` / `ℚ` (underscore separators and the `inf` / `nan`
float literals are not modelled), IEEE floats become real numbers, and the
per-file loop of `main` becomes a recursion over a list of file outcomes.
-/

/-- An XML element: tag, optional text node, child elements in document
order.  This is the fragment of ElementTree the program uses. -/
inductive XmlNode where
  | elem (tag : String) (text : Option String) (children : List XmlNode)

def XmlNode.tag : XmlNode → String
  | .elem t _ _ => t

def XmlNode.text : XmlNode → Option String
  | .elem _ x _ => x

def XmlNode.children : XmlNode → List XmlNode
  | .elem _ _ cs => cs

instance : Inhabited XmlNode := ⟨.elem "" none []⟩

/-- The children of `e` whose tag is `tag`, in document order
(ElementTree `findall("./tag")`). -/
def childrenNamed (e : XmlNode) (tag : String) : List XmlNode :=
  e.children.filter (fun c => c.tag == tag)

/-- All elements matching a relative path (`"a/b/c"` as `["a", "b", "c"]`),
in document order (ElementTree `iterfind` on a child path). -/
def findallPath (e : XmlNode) (path : List String) : List XmlNode :=
  match path with
  | [] => [e]
  | tag :: rest => (childrenNamed e tag).flatMap (fun c => findallPath c rest)

/-- The first element matching a relative path (ElementTree `find`). -/
def find (e : XmlNode) (path : List String) : Option XmlNode :=
  (findallPath e path).head?

/-- All elements of the subtrees of the given list, in document order
(preorder).  Drives the `".//Placemark"` descendant search. -/
def subtreeList : List XmlNode → List XmlNode
  | [] => []
  | .elem t x cs :: rest => .elem t x cs :: (subtreeList cs ++ subtreeList rest)

/-- All proper descendants of `root` with the given tag, in document order
(ElementTree `findall(".//tag")`). -/
def findallDesc (root : XmlNode) (tag : String) : List XmlNode :=
  (subtreeList root.children).filter (fun c => c.tag == tag)

/-- Python whitespace (`str.strip` / `str.split` with no separator). -/
def pyIsSpace (c : Char) : Bool :=
  c == ' ' || c == '\t' || c == '\n' || c == '\r' || c.toNat == 11 || c.toNat == 12

/-- Split a character list at every separator character, keeping empty
groups (the semantics of `str.split(sep)` at character level). -/
def splitOnPred (p : Char → Bool) : List Char → List (List Char)
  | [] => [[]]
  | c :: rest =>
    match splitOnPred p rest with
    | [] => [[c]]
    | g :: gs => if p c then [] :: g :: gs else (c :: g) :: gs

/-- Join character groups with a separator character (`sep.join`). -/
def joinChar (sep : Char) : List (List Char) → List Char
  | [] => []
  | [g] => g
  | g :: gs => g ++ sep :: joinChar sep gs

/-- Python `str.strip()`: drop leading and trailing whitespace. -/
def pyStrip (s : String) : String :=
  String.mk (((s.toList.dropWhile pyIsSpace).reverse.dropWhile pyIsSpace).reverse)

/-- Model of `clean_text`: turn CR, LF and TAB into spaces, trim, and collapse runs of
whitespace to single spaces — in the program, `" ".join(s.split())` after
the character replacement (the program always collapses). -/
def clean_text (s : String) : String :=
  let s1 := s.toList.map (fun c => if c == '\r' || c == '\n' || c == '\t' then ' ' else c)
  String.mk (joinChar ' ' ((splitOnPred pyIsSpace s1).filter (fun g => g ≠ [])))

/-- Model of `parse_text`: text of the first element at `path`, cleaned; the default
when the element is absent or has no text. -/
def parse_text (e : XmlNode) (path : List String) (dflt : String) : String :=
  match find e path with
  | none => dflt
  | some n =>
    match n.text with
    | none => dflt
    | some t => clean_text t

def digitsToNat (cs : List Char) : Nat :=
  cs.foldl (fun n c => 10 * n + (c.toNat - 48)) 0

/-- Python `int(s)`: optional sign then decimal digits, surrounding
whitespace ignored; `none` where `int` raises. -/
def pyParseInt (s : String) : Option Int :=
  let cs := (pyStrip s).toList
  match cs with
  | '+' :: rest =>
    if rest ≠ [] ∧ rest.all Char.isDigit then some (digitsToNat rest) else none
  | '-' :: rest =>
    if rest ≠ [] ∧ rest.all Char.isDigit then some (-(digitsToNat rest : Int)) else none
  | _ =>
    if cs ≠ [] ∧ cs.all Char.isDigit then some (digitsToNat cs) else none

/-- Model of `parse_int`: cleaned text at `path` through `int()`, a default where that
fails. -/
def parse_int (e : XmlNode) (path : List String) (dflt : Int) : Int :=
  match pyParseInt (parse_text e path "") with
  | some n => n
  | none => dflt

/-- The exponent tail of a Python float literal: empty, or `e`/`E`, an
optional sign and digits.  `none` where `float` raises. -/
def pyFloatExp (mant : ℚ) (cs : List Char) : Option ℚ :=
  match cs with
  | [] => some mant
  | c :: t =>
    if c = 'e' ∨ c = 'E' then
      let sgnRest : Int × List Char :=
        match t with
        | '+' :: u => (1, u)
        | '-' :: u => (-1, u)
        | _ => (1, t)
      let ds := sgnRest.2.takeWhile Char.isDigit
      let rest := sgnRest.2.dropWhile Char.isDigit
      if ds = [] ∨ rest ≠ [] then none
      else some (mant * (10 : ℚ) ^ (sgnRest.1 * (digitsToNat ds : Int)))
    else none

/-- Model of `parse_float_safe`: Python `float(s)` as a rational — optional sign,
digits with an optional fractional part (at least one digit overall), an
optional exponent; `none` where `float` raises. -/
def parse_float_safe (s : String) : Option ℚ :=
  let cs := (pyStrip s).toList
  let sgnRest : ℚ × List Char :=
    match cs with
    | '+' :: t => (1, t)
    | '-' :: t => (-1, t)
    | _ => (1, cs)
  let intPart := sgnRest.2.takeWhile Char.isDigit
  let afterInt := sgnRest.2.dropWhile Char.isDigit
  match afterInt with
  | '.' :: t =>
    let fracPart := t.takeWhile Char.isDigit
    let rest := t.dropWhile Char.isDigit
    if intPart = [] ∧ fracPart = [] then none
    else
      pyFloatExp
        (sgnRest.1 * ((digitsToNat intPart : ℚ)
          + (digitsToNat fracPart : ℚ) / (10 : ℚ) ^ fracPart.length))
        rest
  | _ =>
    if intPart = [] then none
    else pyFloatExp (sgnRest.1 * (digitsToNat intPart : ℚ)) afterInt

/-- One row of the detail TSV as built inside `parse_via_points` (the
`detail` dict): every waypoint attribute plus the raw position, the parsed
coordinates (`none` renders as an empty cell) and the 1-based sequence
number. -/
structure ViaDetail where
  Position : String
  Lat : Option ℚ
  Lon : Option ℚ
  GroupID : String
  Segment : String
  Heading : String
  «Type» : String
  LinkToGeom : String
  Direction : String
  TTSRemark : String
  WorkType : String
  MMRule : String
  ManeuverID : String
  ManeuverNumber : String
  IsDeadEnd : String
  seq : Nat

/-- The comma-separated tokens of a position text, each stripped. -/
def posTokens (pos_txt : String) : List String :=
  ((splitOnPred (fun c => c == ',') pos_txt.toList).map String.mk).map pyStrip

/-- The `lat`, `lon` locals of the waypoint loop: parsed independently from
the two tokens of a `"lon, lat"` position text, `none` otherwise. -/
def viaLatLon (vp : XmlNode) : Option ℚ × Option ℚ :=
  let pos_txt := parse_text vp ["Position"] ""
  if pos_txt = "" then (none, none)
  else
    let parts := posTokens pos_txt
    if parts.length = 2 then
      (parse_float_safe (parts.getD 1 ""), parse_float_safe (parts.getD 0 ""))
    else (none, none)

/-- The coordinate pair a waypoint appends to the route polyline: present
exactly when both tokens parse. -/
def viaCoord (vp : XmlNode) : Option (ℚ × ℚ) :=
  match viaLatLon vp with
  | (some lat, some lon) => some (lat, lon)
  | _ => none

/-- The detail record of one waypoint, given its sequence number. -/
def viaDetailOf (vp : XmlNode) (seq : Nat) : ViaDetail :=
  { Position := parse_text vp ["Position"] ""
    Lat := (viaLatLon vp).1
    Lon := (viaLatLon vp).2
    GroupID := parse_text vp ["GroupID"] ""
    Segment := parse_text vp ["Segment"] ""
    Heading := parse_text vp ["Heading"] ""
    «Type» := parse_text vp ["Type"] ""
    LinkToGeom := parse_text vp ["LinkToGeom"] ""
    Direction := parse_text vp ["Direction"] ""
    TTSRemark := parse_text vp ["TTSRemark"] ""
    WorkType := parse_text vp ["WorkType"] ""
    MMRule := parse_text vp ["MMRule"] ""
    ManeuverID := parse_text vp ["ManeuverID"] ""
    ManeuverNumber := parse_text vp ["ManeuverNumber"] ""
    IsDeadEnd := parse_text vp ["IsDeadEnd"] ""
    seq := seq }

/-- The summary record of one waypoint, as the ordered key/value list the
program serializes to JSON: all attributes except `TTSRemark` and `seq`. -/
def viaMinOf (vp : XmlNode) : List (String × String) :=
  [("Position", parse_text vp ["Position"] ""),
   ("GroupID", parse_text vp ["GroupID"] ""),
   ("Segment", parse_text vp ["Segment"] ""),
   ("Heading", parse_text vp ["Heading"] ""),
   ("Type", parse_text vp ["Type"] ""),
   ("LinkToGeom", parse_text vp ["LinkToGeom"] ""),
   ("Direction", parse_text vp ["Direction"] ""),
   ("WorkType", parse_text vp ["WorkType"] ""),
   ("MMRule", parse_text vp ["MMRule"] ""),
   ("ManeuverID", parse_text vp ["ManeuverID"] ""),
   ("ManeuverNumber", parse_text vp ["ManeuverNumber"] ""),
   ("IsDeadEnd", parse_text vp ["IsDeadEnd"] "")]

/-- The waypoints of a route-info element: the `ViaPoint` children of its
first `ViaPoints` child, none when that child is missing. -/
def viaChildren (routeinfo : XmlNode) : List XmlNode :=
  match find routeinfo ["ViaPoints"] with
  | none => []
  | some vp_parent => childrenNamed vp_parent "ViaPoint"

/-- The detail records of a run of waypoints, numbering them from `seq + 1`
(the loop enters each iteration with `seq += 1`). -/
def viaDetails : List XmlNode → Nat → List ViaDetail
  | [], _ => []
  | vp :: rest, seq => viaDetailOf vp (seq + 1) :: viaDetails rest (seq + 1)

/-- Model of `parse_via_points`: the summary list, the detail list and the coordinate
sequence of a route-info element. -/
def parse_via_points (routeinfo : XmlNode) :
    List (List (String × String)) × List ViaDetail × List (ℚ × ℚ) :=
  let vps := viaChildren routeinfo
  (vps.map viaMinOf, viaDetails vps 0, vps.filterMap viaCoord)

/-- Model of `math.radians`. -/
noncomputable def radians (d : ℝ) : ℝ := d * Real.pi / 180

/-- Model of `math.atan2 y x` (signed zeros and infinities are not modelled). -/
noncomputable def atan2 (y x : ℝ) : ℝ :=
  if 0 < x then Real.arctan (y / x)
  else if x < 0 ∧ 0 ≤ y then Real.arctan (y / x) + Real.pi
  else if x < 0 ∧ y < 0 then Real.arctan (y / x) - Real.pi
  else if x = 0 ∧ 0 < y then Real.pi / 2
  else if x = 0 ∧ y < 0 then -(Real.pi / 2)
  else 0

/-- Model of `haversine_km`: half-angle haversine great-circle distance on a sphere
of mean radius 6371.0088 km, inputs in degrees. -/
noncomputable def haversine_km (lat1 lon1 lat2 lon2 : ℝ) : ℝ :=
  let R : ℝ := 6371.0088
  let phi1 := radians lat1
  let phi2 := radians lat2
  let dphi := radians (lat2 - lat1)
  let dlmb := radians (lon2 - lon1)
  let a := Real.sin (dphi / 2) ^ 2
    + Real.cos phi1 * Real.cos phi2 * Real.sin (dlmb / 2) ^ 2
  let c := 2 * atan2 (Real.sqrt a) (Real.sqrt (1 - a))
  R * c

/-- Model of `total_distance_km`: 0 for at most one coordinate, otherwise the indexed
loop `for i in range(1, len)` summing consecutive haversine distances. -/
noncomputable def total_distance_km (positions : List (ℚ × ℚ)) : ℝ :=
  if positions.length ≤ 1 then 0
  else
    (List.range' 1 (positions.length - 1)).foldl
      (fun total i =>
        let p1 := positions.getD (i - 1) (0, 0)
        let p2 := positions.getD i (0, 0)
        total + haversine_km (p1.1 : ℝ) (p1.2 : ℝ) (p2.1 : ℝ) (p2.2 : ℝ))
      0

/-- Python `round(x, 6)` on the real model of the float result. -/
noncomputable def round6 (x : ℝ) : ℝ := ((round (x * 1000000) : ℤ) : ℝ) / 1000000

/-- One row of the main CSV (the `row` dict of `process_single_xml`). -/
structure MainRow where
  name : String
  description : String
  CreationTimeUTC : String
  IsManuallyCorrected : String
  TotalDistanceKm : ℝ
  RouteInfo_IgnoringRestrictions : String
  RouteInfo_MapCorrectionInfo_DatasetInfo_ImageInfo_ImageName : String
  RouteInfo_MapCorrectionInfo_DatasetInfo_ImageInfo_StartMapId : String
  RouteInfo_ViaPoints_NumVia : Int
  RouteInfo_ViaPoints_ViaPoint : String

/-- One row of the detail TSV as emitted by `process_single_xml`: a detail
record tagged with its placemark's index and name. -/
structure DetailRow where
  placemark_index : Nat
  placemark_name : String
  seq : Nat
  Position : String
  Lat : Option ℚ
  Lon : Option ℚ
  GroupID : String
  Segment : String
  Heading : String
  «Type» : String
  LinkToGeom : String
  Direction : String
  TTSRemark : String
  WorkType : String
  MMRule : String
  ManeuverID : String
  ManeuverNumber : String
  IsDeadEnd : String

def hexDigit (n : Nat) : Char :=
  if n < 10 then Char.ofNat (48 + n) else Char.ofNat (87 + n)

def hex4 (n : Nat) : String :=
  String.mk [hexDigit (n / 4096 % 16), hexDigit (n / 256 % 16),
             hexDigit (n / 16 % 16), hexDigit (n % 16)]

/-- One character under `json.dumps` string escaping (`ensure_ascii=False`). -/
def jsonEscapeChar (c : Char) : String :=
  if c = '"' then "\\\""
  else if c = '\\' then "\\\\"
  else if c = '\n' then "\\n"
  else if c = '\r' then "\\r"
  else if c = '\t' then "\\t"
  else if c.toNat = 8 then "\\b"
  else if c.toNat = 12 then "\\f"
  else if c.toNat < 32 then "\\u" ++ hex4 c.toNat
  else c.toString

/-- A JSON string literal as `json.dumps` writes it. -/
def jsonStr (s : String) : String :=
  "\"" ++ String.join (s.toList.map jsonEscapeChar) ++ "\""

/-- A flat JSON object of string values, in field order, with the default
`", "` and `": "` separators of `json.dumps`. -/
def jsonObj (fields : List (String × String)) : String :=
  "\x7b" ++ String.intercalate ", "
    (fields.map (fun kv => jsonStr kv.1 ++ ": " ++ jsonStr kv.2)) ++ "\x7d"

/-- Model of `json.dumps` of the summary list: a single-line JSON array of flat
objects. -/
def jsonDumps (l : List (List (String × String))) : String :=
  "[" ++ String.intercalate ", " (l.map jsonObj) ++ "]"

/-- Strip every carriage return and line feed (`.replace("\r", "").replace("\n", "")`). -/
def stripCRLF (s : String) : String :=
  (s.replace "\r" "").replace "\n" ""

/-- The body of the placemark loop of `process_single_xml`: the main row and
the detail rows of one placemark (1-based index `idx`). -/
noncomputable def processPlacemark (idx : Nat) (pm : XmlNode) : MainRow × List DetailRow :=
  let name := parse_text pm ["name"] ""
  let description := parse_text pm ["description"] ""
  let creation_time := parse_text pm ["CreationTimeUTC"] ""
  let is_manually_corrected := parse_text pm ["IsManuallyCorrected"] ""
  match find pm ["RouteInfo"] with
  | none =>
    ({ name := name
       description := description
       CreationTimeUTC := creation_time
       IsManuallyCorrected := is_manually_corrected
       TotalDistanceKm := 0
       RouteInfo_IgnoringRestrictions := ""
       RouteInfo_MapCorrectionInfo_DatasetInfo_ImageInfo_ImageName := ""
       RouteInfo_MapCorrectionInfo_DatasetInfo_ImageInfo_StartMapId := ""
       RouteInfo_ViaPoints_NumVia := 0
       RouteInfo_ViaPoints_ViaPoint := "[]" }, [])
  | some routeinfo =>
    let ignoring := parse_text routeinfo ["IgnoringRestrictions"] ""
    let image_name :=
      parse_text routeinfo ["MapCorrectionInfo", "DatasetInfo", "ImageInfo", "ImageName"] ""
    let start_map_id :=
      parse_text routeinfo ["MapCorrectionInfo", "DatasetInfo", "ImageInfo", "StartMapId"] ""
    let num_via := parse_int routeinfo ["ViaPoints", "NumVia"] 0
    let vpp := parse_via_points routeinfo
    let via_json := stripCRLF (jsonDumps vpp.1)
    ({ name := name
       description := description
       CreationTimeUTC := creation_time
       IsManuallyCorrected := is_manually_corrected
       TotalDistanceKm := round6 (total_distance_km vpp.2.2)
       RouteInfo_IgnoringRestrictions := ignoring
       RouteInfo_MapCorrectionInfo_DatasetInfo_ImageInfo_ImageName := image_name
       RouteInfo_MapCorrectionInfo_DatasetInfo_ImageInfo_StartMapId := start_map_id
       RouteInfo_ViaPoints_NumVia := if num_via ≠ 0 then num_via else (vpp.2.1.length : Int)
       RouteInfo_ViaPoints_ViaPoint := via_json },
     vpp.2.1.map (fun d =>
       { placemark_index := idx
         placemark_name := name
         seq := d.seq
         Position := d.Position
         Lat := d.Lat
         Lon := d.Lon
         GroupID := d.GroupID
         Segment := d.Segment
         Heading := d.Heading
         «Type» := d.«Type»
         LinkToGeom := d.LinkToGeom
         Direction := d.Direction
         TTSRemark := d.TTSRemark
         WorkType := d.WorkType
         MMRule := d.MMRule
         ManeuverID := d.ManeuverID
         ManeuverNumber := d.ManeuverNumber
         IsDeadEnd := d.IsDeadEnd }))

/-- Model of `process_single_xml` on a parsed document: one main row per placemark
found anywhere in the tree (numbered from 1), all detail rows concatenated. -/
noncomputable def process_single_xml (root : XmlNode) : List MainRow × List DetailRow :=
  let pms := findallDesc root "Placemark"
  (pms.enum.map (fun ip => (processPlacemark (ip.1 + 1) ip.2).1),
   pms.enum.flatMap (fun ip => (processPlacemark (ip.1 + 1) ip.2).2))

/-- What reading and parsing one input file yields: a parsed document, an
XML parse error, or an OS read error. -/
inductive FileResult where
  | ok (root : XmlNode)
  | parseError (msg : String)
  | readError (msg : String)

/-- The parsed document of a file result, if any. -/
def okRoot : FileResult → Option XmlNode
  | .ok root => some root
  | _ => none

/-- The warning line a file result makes `main` print, if any. -/
def fileWarning (path : String) : FileResult → Option String
  | .ok _ => none
  | .parseError e => some ("[警告] 解析失敗（跳過）：" ++ path ++ " | " ++ e)
  | .readError e => some ("[警告] 檔案讀取失敗（跳過）：" ++ path ++ " | " ++ e)

/-- The accumulation loop of `main`: warnings printed, main rows and detail
rows gathered, in input order. -/
noncomputable def processFiles :
    List (String × FileResult) → List String × List MainRow × List DetailRow
  | [] => ([], [], [])
  | (path, fr) :: rest =>
    let acc := processFiles rest
    match fr with
    | .ok root =>
      (acc.1, (process_single_xml root).1 ++ acc.2.1, (process_single_xml root).2 ++ acc.2.2)
    | .parseError e =>
      (("[警告] 解析失敗（跳過）：" ++ path ++ " | " ++ e) :: acc.1, acc.2)
    | .readError e =>
      (("[警告] 檔案讀取失敗（跳過）：" ++ path ++ " | " ++ e) :: acc.1, acc.2)

/-- The observable outcome of one invocation of `main`: warnings, the two
accumulators, the exit code, the output files actually created and the
confirmation lines printed. -/
structure RunOutcome where
  warnings : List String
  mainRows : List MainRow
  detailRows : List DetailRow
  exitCode : Nat
  filesWritten : List String
  confirmations : List String

/-- Model of `main` after input collection: abort (exit 1, nothing written) when no
input file resolved or no main row was produced; otherwise write the main
CSV, write the detail TSV only when requested and nonempty (`write_detail_tsv`
returns early on an empty row list), and print one confirmation per
requested output. -/
noncomputable def runMain (files : List (String × FileResult)) (outputCsv : String)
    (detailTsv : Option String) : RunOutcome :=
  if files.isEmpty then
    { warnings := [], mainRows := [], detailRows := [], exitCode := 1,
      filesWritten := [], confirmations := [] }
  else
    let acc := processFiles files
    if acc.2.1.isEmpty then
      { warnings := acc.1, mainRows := acc.2.1, detailRows := acc.2.2, exitCode := 1,
        filesWritten := [], confirmations := [] }
    else
      { warnings := acc.1, mainRows := acc.2.1, detailRows := acc.2.2, exitCode := 0,
        filesWritten := outputCsv ::
          (match detailTsv with
           | some p => if acc.2.2.isEmpty then [] else [p]
           | none => []),
        confirmations := ("✅ 已輸出主檔 CSV：" ++ outputCsv) ::
          (match detailTsv with
           | some p => ["✅ 已輸出明細 TSV：" ++ p]
           | none => []) }

/-- The consecutive-pairs haversine sum as the specification words it: the
sum over each consecutive pair of the coordinate sequence (an empty sum for
fewer than two coordinates). -/
noncomputable def haversineChainSum : List (ℚ × ℚ) → ℝ
  | p :: q :: rest =>
    haversine_km (p.1 : ℝ) (p.2 : ℝ) (q.1 : ℝ) (q.2 : ℝ) + haversineChainSum (q :: rest)
  | _ => 0

/-- The claim's condition on a waypoint: its position text does NOT split
into exactly two comma-separated tokens that both parse as floats. -/
def claimBadPosition (vp : XmlNode) : Bool :=
  let parts := posTokens (parse_text vp ["Position"] "")
  !(parts.length == 2
    && (parse_float_safe (parts.getD 0 "")).isSome
    && (parse_float_safe (parts.getD 1 "")).isSome)

/-- The documented summary field set: every waypoint attribute except the
TTS remark and the sequence number. -/
def summaryKeys : List String :=
  ["Position", "GroupID", "Segment", "Heading", "Type", "LinkToGeom",
   "Direction", "WorkType", "MMRule", "ManeuverID", "ManeuverNumber", "IsDeadEnd"]

/-- Fixture: a waypoint whose longitude token parses but whose latitude
token does not. -/
def cVpBad : XmlNode :=
  .elem "ViaPoint" none [.elem "Position" (some "1.0, abc") []]

/-- Fixture: a route-info element whose only waypoint is `cVpBad`. -/
def cRouteBad : XmlNode :=
  .elem "RouteInfo" none [.elem "ViaPoints" none [cVpBad]]

/-- Fixture: a placemark whose route info is `cRouteBad` (no parseable
coordinate at all). -/
def cPmBad : XmlNode :=
  .elem "Placemark" none [.elem "name" (some "rb") [], cRouteBad]

/-- Fixture: a placemark with no RouteInfo child. -/
def cPmPlain : XmlNode :=
  .elem "Placemark" none [.elem "name" (some "r1") []]

/-- Fixture: a waypoint at latitude 0, longitude 0. -/
def cVpA : XmlNode :=
  .elem "ViaPoint" none [.elem "Position" (some "0.0, 0.0") []]

/-- Fixture: a waypoint at latitude 0, longitude 1. -/
def cVpB : XmlNode :=
  .elem "ViaPoint" none [.elem "Position" (some "1.0, 0.0") []]

/-- Fixture: a route-info element declaring `NumVia` 0 with two parseable
waypoints. -/
def cRi2 : XmlNode :=
  .elem "RouteInfo" none
    [.elem "ViaPoints" none [.elem "NumVia" (some "0") [], cVpA, cVpB]]

/-- Fixture: a placemark carrying `cRi2`. -/
def cPm2 : XmlNode :=
  .elem "Placemark" none [.elem "name" (some "r2") [], cRi2]

/-- Fixture: a parsed document whose only placemark is `cPmPlain`, so a run
over it produces one main row and no detail row. -/
def cDocNoRi : XmlNode :=
  .elem "kml" none [cPmPlain]

theorem viaDetails_length (vps : List XmlNode) (s : Nat) :
    (viaDetails vps s).length = vps.length := by
  induction vps generalizing s with
  | nil => rfl
  | cons vp rest ih => simp [viaDetails, ih]

theorem viaDetails_map_seq (vps : List XmlNode) (s : Nat) :
    (viaDetails vps s).map ViaDetail.seq = List.range' (s + 1) vps.length := by
  induction vps generalizing s with
  | nil => rfl
  | cons vp rest ih =>
    simp [viaDetails, viaDetailOf, ih, List.range'_succ]

/-- C10: within a route the sequence numbers of the waypoint detail records
are the contiguous 1-based integers 1, 2, …, k in document order, whatever
the waypoints' coordinates. -/
theorem c10_seq_contiguous (routeinfo : XmlNode) :
    ((parse_via_points routeinfo).2.1.map ViaDetail.seq)
      = List.range' 1 ((parse_via_points routeinfo).2.1).length := by
  simp [parse_via_points, viaDetails_map_seq, viaDetails_length]

/-- C2: a placemark without a RouteInfo child still yields a complete main
record, with zero distance, empty route-info fields, zero waypoint count and
an empty-list JSON string. -/
theorem c2_no_routeinfo_record (idx : Nat) (pm : XmlNode)
    (h : find pm ["RouteInfo"] = none) :
    (processPlacemark idx pm).1.TotalDistanceKm = 0
    ∧ (processPlacemark idx pm).1.RouteInfo_IgnoringRestrictions = ""
    ∧ (processPlacemark idx pm).1.RouteInfo_MapCorrectionInfo_DatasetInfo_ImageInfo_ImageName = ""
    ∧ (processPlacemark idx pm).1.RouteInfo_MapCorrectionInfo_DatasetInfo_ImageInfo_StartMapId = ""
    ∧ (processPlacemark idx pm).1.RouteInfo_ViaPoints_NumVia = 0
    ∧ (processPlacemark idx pm).1.RouteInfo_ViaPoints_ViaPoint = "[]" := by
  simp [processPlacemark, h]

/-- Witness for C2 at the concrete placemark `cPmPlain`. -/
theorem c2_witness :
    (processPlacemark 1 cPmPlain).1.TotalDistanceKm = 0
    ∧ (processPlacemark 1 cPmPlain).1.RouteInfo_IgnoringRestrictions = ""
    ∧ (processPlacemark 1 cPmPlain).1.RouteInfo_MapCorrectionInfo_DatasetInfo_ImageInfo_ImageName = ""
    ∧ (processPlacemark 1 cPmPlain).1.RouteInfo_MapCorrectionInfo_DatasetInfo_ImageInfo_StartMapId = ""
    ∧ (processPlacemark 1 cPmPlain).1.RouteInfo_ViaPoints_NumVia = 0
    ∧ (processPlacemark 1 cPmPlain).1.RouteInfo_ViaPoints_ViaPoint = "[]" :=
  c2_no_routeinfo_record 1 cPmPlain rfl

/-- C3: with a RouteInfo present, the NumVia written to the main record is
the declared count (parsed with default 0) when that count is non-zero, and
the number of extracted waypoint records otherwise. -/
theorem c3_numvia_fallback (idx : Nat) (pm routeinfo : XmlNode)
    (h : find pm ["RouteInfo"] = some routeinfo) :
    (parse_int routeinfo ["ViaPoints", "NumVia"] 0 ≠ 0 →
      (processPlacemark idx pm).1.RouteInfo_ViaPoints_NumVia
        = parse_int routeinfo ["ViaPoints", "NumVia"] 0)
    ∧ (parse_int routeinfo ["ViaPoints", "NumVia"] 0 = 0 →
      (processPlacemark idx pm).1.RouteInfo_ViaPoints_NumVia
        = (((parse_via_points routeinfo).2.1).length : Int)) := by
  constructor <;> intro hn <;> simp [processPlacemark, h, hn]

/-- Witness for C3 at `cPm2`: declared count 0, two extracted waypoints. -/
theorem c3_witness :
    (parse_int cRi2 ["ViaPoints", "NumVia"] 0 ≠ 0 →
      (processPlacemark 1 cPm2).1.RouteInfo_ViaPoints_NumVia
        = parse_int cRi2 ["ViaPoints", "NumVia"] 0)
    ∧ (parse_int cRi2 ["ViaPoints", "NumVia"] 0 = 0 →
      (processPlacemark 1 cPm2).1.RouteInfo_ViaPoints_NumVia
        = (((parse_via_points cRi2).2.1).length : Int)) :=
  c3_numvia_fallback 1 cPm2 cRi2 rfl

/-- C9: the waypoint-summary field of a main row is the stripped JSON
serialization of the summary list; that list has one element per extracted
waypoint, and each element carries exactly the documented key set (no
TTSRemark, no sequence number), in order. -/
theorem c9_summary_json_shape (idx : Nat) (pm routeinfo : XmlNode)
    (h : find pm ["RouteInfo"] = some routeinfo) :
    (processPlacemark idx pm).1.RouteInfo_ViaPoints_ViaPoint
      = stripCRLF (jsonDumps ((parse_via_points routeinfo).1))
    ∧ ((parse_via_points routeinfo).1).length = ((parse_via_points routeinfo).2.1).length
    ∧ ∀ m ∈ (parse_via_points routeinfo).1, m.map Prod.fst = summaryKeys := by
  refine ⟨by simp [processPlacemark, h], ?_, ?_⟩
  · simp [parse_via_points, viaDetails_length]
  · intro m hm
    simp only [parse_via_points, List.mem_map] at hm
    obtain ⟨vp, -, rfl⟩ := hm
    simp [viaMinOf, summaryKeys]

/-- Witness for C9 at `cPm2`. -/
theorem c9_witness :
    (processPlacemark 1 cPm2).1.RouteInfo_ViaPoints_ViaPoint
      = stripCRLF (jsonDumps ((parse_via_points cRi2).1))
    ∧ ((parse_via_points cRi2).1).length = ((parse_via_points cRi2).2.1).length
    ∧ ∀ m ∈ (parse_via_points cRi2).1, m.map Prod.fst = summaryKeys :=
  c9_summary_json_shape 1 cPm2 cRi2 rfl

theorem viaLatLon_of_bad (vp : XmlNode) (hbad : claimBadPosition vp = true) :
    (viaLatLon vp).1 = none ∨ (viaLatLon vp).2 = none := by
  unfold viaLatLon
  by_cases hp : parse_text vp ["Position"] "" = ""
  · simp [hp]
  · by_cases hl : (posTokens (parse_text vp ["Position"] "")).length = 2
    · have hl0 : 0 < (posTokens (parse_text vp ["Position"] "")).length := by omega
      have hl1 : 1 < (posTokens (parse_text vp ["Position"] "")).length := by omega
      have e0 : (posTokens (parse_text vp ["Position"] "")).getD 0 ""
          = (posTokens (parse_text vp ["Position"] ""))[0] :=
        List.getD_eq_getElem _ _ hl0
      have e1 : (posTokens (parse_text vp ["Position"] "")).getD 1 ""
          = (posTokens (parse_text vp ["Position"] ""))[1] :=
        List.getD_eq_getElem _ _ hl1
      rcases h0 : parse_float_safe ((posTokens (parse_text vp ["Position"] "")).getD 0 "")
          with _ | v0
      · rw [e0] at h0
        right; simp [hp, hl, h0]
      · rcases h1 : parse_float_safe ((posTokens (parse_text vp ["Position"] "")).getD 1 "")
            with _ | v1
        · rw [e1] at h1
          left; simp [hp, hl, h1]
        · exfalso
          rw [e0] at h0
          rw [e1] at h1
          have hfalse : claimBadPosition vp = false := by
            simp [claimBadPosition, hl, h0, h1]
          rw [hfalse] at hbad
          exact Bool.false_ne_true hbad
    · simp [hp, hl]

theorem viaCoord_of_bad (vp : XmlNode) (hbad : claimBadPosition vp = true) :
    viaCoord vp = none := by
  unfold viaCoord
  rcases hvl : viaLatLon vp with ⟨l1, l2⟩
  rcases viaLatLon_of_bad vp hbad with h | h <;> rw [hvl] at h <;>
    simp only at h <;> subst h
  · rfl
  · cases l1 <;> rfl

/-- C1 counterexample: the waypoint `cVpBad` has position text
`"1.0, abc"`, which does not split into two float tokens, yet its detail
record keeps a non-empty `Lon` (the parsed `1.0`) — the claim's
"empty Lat and Lon" fails on the code. -/
theorem c1_counterexample :
    claimBadPosition cVpBad = true
    ∧ (parse_via_points cRouteBad).2.1.map (fun d => d.Lat.isSome) = [false]
    ∧ (parse_via_points cRouteBad).2.1.map (fun d => d.Lon.isSome) = [true] :=
  ⟨rfl, rfl, rfl⟩

/-- C1 as amended: a waypoint whose position text does not split into two
float tokens contributes no pair to the coordinate sequence (which collects
exactly the parseable waypoints), is still retained as a detail row (the
detail count equals the waypoint count), and at least one of its Lat and Lon
detail fields is empty — the field of a token that does parse is kept even
when the other token fails. -/
theorem c1_amended_badpos (routeinfo vp : XmlNode) (s : Nat)
    (hmem : vp ∈ viaChildren routeinfo) (hbad : claimBadPosition vp = true) :
    viaCoord vp = none
    ∧ ((viaDetailOf vp s).Lat = none ∨ (viaDetailOf vp s).Lon = none)
    ∧ ((parse_via_points routeinfo).2.1).length = (viaChildren routeinfo).length
    ∧ (parse_via_points routeinfo).2.2 = (viaChildren routeinfo).filterMap viaCoord := by
  refine ⟨viaCoord_of_bad vp hbad, ?_, ?_, rfl⟩
  · simpa [viaDetailOf] using viaLatLon_of_bad vp hbad
  · simp [parse_via_points, viaDetails_length]

/-- Witness for the amended C1 at the concrete waypoint `cVpBad` inside
`cRouteBad`. -/
theorem c1_amended_witness :
    viaCoord cVpBad = none
    ∧ ((viaDetailOf cVpBad 1).Lat = none ∨ (viaDetailOf cVpBad 1).Lon = none)
    ∧ ((parse_via_points cRouteBad).2.1).length = (viaChildren cRouteBad).length
    ∧ (parse_via_points cRouteBad).2.2 = (viaChildren cRouteBad).filterMap viaCoord :=
  c1_amended_badpos cRouteBad cVpBad 1 (List.mem_singleton.mpr rfl) rfl

theorem foldl_add_hav (xs : List (ℚ × ℚ)) : ∀ (l : List Nat) (a : ℝ),
    l.foldl
      (fun total i =>
        let p1 := xs.getD (i - 1) (0, 0)
        let p2 := xs.getD i (0, 0)
        total + haversine_km (p1.1 : ℝ) (p1.2 : ℝ) (p2.1 : ℝ) (p2.2 : ℝ))
      a
    = a + (l.map (fun i =>
        haversine_km ((xs.getD (i - 1) (0, 0)).1 : ℝ) ((xs.getD (i - 1) (0, 0)).2 : ℝ)
          ((xs.getD i (0, 0)).1 : ℝ) ((xs.getD i (0, 0)).2 : ℝ))).sum := by
  intro l
  induction l with
  | nil => intro a; simp
  | cons x rest ih =>
    intro a
    simp only [List.foldl_cons, List.map_cons, List.sum_cons, ih]
    ring

theorem range_sum_eq_chain : ∀ (xs : List (ℚ × ℚ)),
    ((List.range (xs.length - 1)).map (fun i =>
      haversine_km ((xs.getD i (0, 0)).1 : ℝ) ((xs.getD i (0, 0)).2 : ℝ)
        ((xs.getD (i + 1) (0, 0)).1 : ℝ) ((xs.getD (i + 1) (0, 0)).2 : ℝ))).sum
    = haversineChainSum xs := by
  intro xs
  induction xs with
  | nil => simp [haversineChainSum]
  | cons p tail ih =>
    cases tail with
    | nil => simp [haversineChainSum]
    | cons q rest =>
      have hlen : (p :: q :: rest).length - 1 = rest.length + 1 := by simp
      rw [hlen, List.range_succ_eq_map]
      rw [haversineChainSum]
      simp only [List.map_cons, List.sum_cons, List.map_map]
      congr 1

theorem total_distance_eq_chain (l : List (ℚ × ℚ)) :
    total_distance_km l = haversineChainSum l := by
  unfold total_distance_km
  split
  case isTrue h =>
    match l, h with
    | [], _ => simp [haversineChainSum]
    | [p], _ => simp [haversineChainSum]
  case isFalse h =>
    rw [List.range'_eq_map_range, foldl_add_hav, zero_add, List.map_map, ← range_sum_eq_chain]
    congr 1
    apply List.map_congr_left
    intro i _
    simp [Function.comp, Nat.add_sub_cancel_left, Nat.add_comm 1 i]

/-- C4: a route whose coordinate sequence has zero or one valid pairs has
total distance exactly 0, both as `total_distance_km` computes it and as
written to the main record. -/
theorem c4_short_route_zero (idx : Nat) (pm routeinfo : XmlNode)
    (h : find pm ["RouteInfo"] = some routeinfo)
    (hlen : ((parse_via_points routeinfo).2.2).length ≤ 1) :
    total_distance_km (parse_via_points routeinfo).2.2 = 0
    ∧ (processPlacemark idx pm).1.TotalDistanceKm = 0 := by
  have h0 : total_distance_km (parse_via_points routeinfo).2.2 = 0 := by
    unfold total_distance_km
    rw [if_pos hlen]
  refine ⟨h0, ?_⟩
  simp [processPlacemark, h, h0, round6]

/-- Witness for C4 at `cPmBad`, whose only waypoint has an unparseable
position, so the coordinate sequence is empty. -/
theorem c4_witness :
    total_distance_km (parse_via_points cRouteBad).2.2 = 0
    ∧ (processPlacemark 1 cPmBad).1.TotalDistanceKm = 0 :=
  c4_short_route_zero 1 cPmBad cRouteBad rfl (Nat.zero_le 1)

/-- C5: with a RouteInfo present and at least two valid coordinate pairs,
the TotalDistanceKm written to the main record is the consecutive-pairs
haversine sum over the coordinate sequence, rounded to 6 decimal places. -/
theorem c5_distance_haversine_sum (idx : Nat) (pm routeinfo : XmlNode)
    (h : find pm ["RouteInfo"] = some routeinfo)
    (h2 : 2 ≤ ((parse_via_points routeinfo).2.2).length) :
    (processPlacemark idx pm).1.TotalDistanceKm
      = round6 (haversineChainSum (parse_via_points routeinfo).2.2) := by
  simp [processPlacemark, h, total_distance_eq_chain]

/-- Witness for C5 at `cPm2`, whose route has the two coordinate pairs
(0, 0) and (0, 1). -/
theorem c5_witness :
    (processPlacemark 1 cPm2).1.TotalDistanceKm
      = round6 (haversineChainSum (parse_via_points cRi2).2.2) :=
  c5_distance_haversine_sum 1 cPm2 cRi2 rfl (Nat.le_of_eq rfl)

/-- C6: a file whose reading or parsing fails contributes exactly one
warning and no rows, and the accumulated main and detail tables are exactly
the concatenated outputs of the successfully parsed files, in order. -/
theorem c6_per_file_isolation (files : List (String × FileResult)) :
    (processFiles files).2.1
      = (files.filterMap (fun f => okRoot f.2)).flatMap (fun root => (process_single_xml root).1)
    ∧ (processFiles files).2.2
      = (files.filterMap (fun f => okRoot f.2)).flatMap (fun root => (process_single_xml root).2)
    ∧ (processFiles files).1 = files.filterMap (fun f => fileWarning f.1 f.2) := by
  induction files with
  | nil => simp [processFiles]
  | cons f rest ih =>
    obtain ⟨p, fr⟩ := f
    obtain ⟨ih1, ih2, ih3⟩ := ih
    cases fr <;> simp [processFiles, okRoot, fileWarning, ih1, ih2, ih3]

/-- C7: the run exits non-zero precisely when no input file resolved or no
main row was produced, and in those cases no output file is created. -/
theorem c7_fatal_cases (files : List (String × FileResult)) (o : String) (d : Option String) :
    ((runMain files o d).exitCode ≠ 0 ↔ files = [] ∨ (processFiles files).2.1 = [])
    ∧ ((runMain files o d).exitCode ≠ 0 → (runMain files o d).filesWritten = []) := by
  by_cases h1 : files.isEmpty
  · have hnil : files = [] := List.isEmpty_iff.mp h1
    subst hnil
    simp [runMain]
  · by_cases h2 : (processFiles files).2.1.isEmpty
    · have h2' : (processFiles files).2.1 = [] := List.isEmpty_iff.mp h2
      simp [runMain, h1, h2, h2']
    · have h1' : files ≠ [] := by simpa [List.isEmpty_iff] using h1
      have h2' : (processFiles files).2.1 ≠ [] := by simpa [List.isEmpty_iff] using h2
      simp [runMain, h1, h2, h1', h2']

theorem findallDesc_cDoc : findallDesc cDocNoRi "Placemark" = [cPmPlain] := by
  simp [findallDesc, cDocNoRi, cPmPlain, subtreeList, XmlNode.children, XmlNode.tag]

theorem process_single_cDoc :
    process_single_xml cDocNoRi = ([(processPlacemark 1 cPmPlain).1], []) := by
  unfold process_single_xml
  rw [findallDesc_cDoc]
  rfl

theorem processFiles_cDoc :
    processFiles [("a.xml", FileResult.ok cDocNoRi)]
      = ([], [(processPlacemark 1 cPmPlain).1], []) := by
  simp [processFiles, process_single_cDoc]

/-- C8 counterexample: a run over `cDocNoRi` with a detail path requested
succeeds with one main row and zero detail rows; it prints the detail
confirmation line even though the detail file is never created — the
claim's "named if and only if actually created" fails on the code. -/
theorem c8_counterexample :
    (runMain [("a.xml", FileResult.ok cDocNoRi)] "out.csv" (some "d.tsv")).detailRows = []
    ∧ (runMain [("a.xml", FileResult.ok cDocNoRi)] "out.csv" (some "d.tsv")).confirmations
      = [("✅ 已輸出主檔 CSV：" ++ "out.csv"), ("✅ 已輸出明細 TSV：" ++ "d.tsv")]
    ∧ (runMain [("a.xml", FileResult.ok cDocNoRi)] "out.csv" (some "d.tsv")).filesWritten
      = ["out.csv"] := by
  refine ⟨?_, ?_, ?_⟩ <;> simp [runMain, processFiles_cDoc]

/-- C8 as amended: on a successful run the main confirmation is always
printed, and the detail confirmation is printed if and only if a detail
path was requested — even when no detail file is created; the detail file
itself is created exactly when requested and at least one detail row
exists. -/
theorem c8_confirmation_lines (files : List (String × FileResult)) (o : String)
    (d : Option String) (h : (runMain files o d).exitCode = 0) :
    (d = none →
      (runMain files o d).confirmations = [("✅ 已輸出主檔 CSV：" ++ o)]
      ∧ (runMain files o d).filesWritten = [o])
    ∧ (∀ p, d = some p →
      (runMain files o d).confirmations
        = [("✅ 已輸出主檔 CSV：" ++ o), ("✅ 已輸出明細 TSV：" ++ p)])
    ∧ (∀ p, d = some p → (runMain files o d).detailRows = [] →
      (runMain files o d).filesWritten = [o])
    ∧ (∀ p, d = some p → (runMain files o d).detailRows ≠ [] →
      (runMain files o d).filesWritten = [o, p]) := by
  by_cases h1 : files.isEmpty
  · exact absurd h (by simp [runMain, h1])
  · by_cases h2 : (processFiles files).2.1.isEmpty
    · exact absurd h (by simp [runMain, h1, h2])
    · have hd : (runMain files o d).detailRows = (processFiles files).2.2 := by
        simp [runMain, h1, h2]
      refine ⟨?_, ?_, ?_, ?_⟩
      · rintro rfl
        constructor <;> simp [runMain, h1, h2]
      · rintro p rfl
        simp [runMain, h1, h2]
      · rintro p rfl hdr
        rw [hd] at hdr
        simp [runMain, h1, h2, hdr]
      · rintro p rfl hdr
        rw [hd] at hdr
        simp [runMain, h1, h2, List.isEmpty_iff, hdr]

/-- Witness for the amended C8 at the concrete successful run over
`cDocNoRi`. -/
theorem c8_witness :
    ((some "d.tsv" : Option String) = none →
      (runMain [("a.xml", FileResult.ok cDocNoRi)] "out.csv" (some "d.tsv")).confirmations
        = [("✅ 已輸出主檔 CSV：" ++ "out.csv")]
      ∧ (runMain [("a.xml", FileResult.ok cDocNoRi)] "out.csv" (some "d.tsv")).filesWritten
        = ["out.csv"])
    ∧ (∀ p, (some "d.tsv" : Option String) = some p →
      (runMain [("a.xml", FileResult.ok cDocNoRi)] "out.csv" (some "d.tsv")).confirmations
        = [("✅ 已輸出主檔 CSV：" ++ "out.csv"), ("✅ 已輸出明細 TSV：" ++ p)])
    ∧ (∀ p, (some "d.tsv" : Option String) = some p →
      (runMain [("a.xml", FileResult.ok cDocNoRi)] "out.csv" (some "d.tsv")).detailRows = [] →
      (runMain [("a.xml", FileResult.ok cDocNoRi)] "out.csv" (some "d.tsv")).filesWritten
        = ["out.csv"])
    ∧ (∀ p, (some "d.tsv" : Option String) = some p →
      (runMain [("a.xml", FileResult.ok cDocNoRi)] "out.csv" (some "d.tsv")).detailRows ≠ [] →
      (runMain [("a.xml", FileResult.ok cDocNoRi)] "out.csv" (some "d.tsv")).filesWritten
        = ["out.csv", p]) :=
  c8_confirmation_lines [("a.xml", FileResult.ok cDocNoRi)] "out.csv" (some "d.tsv")
    (by simp [runMain, processFiles_cDoc])
